import Mathlib

/-!
Shallow embedding of `src/shim/ffshim.c` / `src/shim/ffshim.h` (the ffgo
FFmpeg shim) and proofs about its specification.

Modelling conventions:
* C pointers that the shim may read or write through are modelled as
  `Option α`: `none` is the NULL pointer, `some v` a valid cell whose current
  contents is `v`.  A function that writes through an output pointer returns
  the written value; a function that would dereference NULL returns the
  distinguished `CResult.nullDeref` value.
* Opaque handles (`AVFormatContext*`, `AVCodecContext*`, ...) are modelled as
  `Option` of a Lean structure holding exactly the fields the shim touches.
* The native FFmpeg library is not part of this repository: its entry points
  (`av_mul_q`, `av_find_input_format`, ...) are fields of explicit
  "native library" structures over which the theorems quantify, so the shim's
  forwarding behaviour is proved for every possible native implementation.
* C `int` / `int64_t` values are modelled as `Int`.  The shim never performs
  arithmetic on them (all arithmetic happens inside the native library), so
  no wrap-around modelling is needed.
* Allocation failure of `av_mallocz` / `av_realloc_array` is modelled by an
  explicit allocation oracle.
-/

/-- Outcome of a C call that writes through caller-supplied pointers:
either the values written (`ok`), or the call dereferenced a NULL pointer. -/
inductive CResult (α : Type) where
  | ok : α → CResult α
  | nullDeref : CResult α
  deriving DecidableEq, Repr

/-- `AVRational` from libavutil: a numerator/denominator pair of C ints. -/
structure AVRational where
  num : Int
  den : Int
  deriving DecidableEq, Repr

/-- The native libavutil rational entry points the shim forwards to.
These live in FFmpeg, outside this repository, so they are uninterpreted:
every theorem below holds for an arbitrary `RationalNative`. -/
structure RationalNative where
  av_mul_q : AVRational → AVRational → AVRational
  av_div_q : AVRational → AVRational → AVRational
  av_add_q : AVRational → AVRational → AVRational
  av_sub_q : AVRational → AVRational → AVRational
  av_d2q : Float → Int → AVRational
  av_q2d : AVRational → Float
  av_cmp_q : AVRational → AVRational → Int

/-- `ffshim_rational_mul` (ffshim.c:71-77): builds the two rationals, calls
`av_mul_q`, and stores `result.num` / `result.den` through `out_num` /
`out_den` unconditionally (no NULL check on the output pointers). -/
def ffshim_rational_mul (N : RationalNative) (a_num a_den b_num b_den : Int)
    (out_num out_den : Option Int) : CResult (Int × Int) :=
  let a : AVRational := ⟨a_num, a_den⟩
  let b : AVRational := ⟨b_num, b_den⟩
  let result := N.av_mul_q a b
  match out_num, out_den with
  | some _, some _ => .ok (result.num, result.den)
  | _, _ => .nullDeref

/-- `ffshim_rational_div` (ffshim.c:79-85): same shape, forwards `av_div_q`. -/
def ffshim_rational_div (N : RationalNative) (a_num a_den b_num b_den : Int)
    (out_num out_den : Option Int) : CResult (Int × Int) :=
  let a : AVRational := ⟨a_num, a_den⟩
  let b : AVRational := ⟨b_num, b_den⟩
  let result := N.av_div_q a b
  match out_num, out_den with
  | some _, some _ => .ok (result.num, result.den)
  | _, _ => .nullDeref

/-- `ffshim_rational_add` (ffshim.c:87-93): forwards `av_add_q`. -/
def ffshim_rational_add (N : RationalNative) (a_num a_den b_num b_den : Int)
    (out_num out_den : Option Int) : CResult (Int × Int) :=
  let a : AVRational := ⟨a_num, a_den⟩
  let b : AVRational := ⟨b_num, b_den⟩
  let result := N.av_add_q a b
  match out_num, out_den with
  | some _, some _ => .ok (result.num, result.den)
  | _, _ => .nullDeref

/-- `ffshim_rational_sub` (ffshim.c:95-101): forwards `av_sub_q`. -/
def ffshim_rational_sub (N : RationalNative) (a_num a_den b_num b_den : Int)
    (out_num out_den : Option Int) : CResult (Int × Int) :=
  let a : AVRational := ⟨a_num, a_den⟩
  let b : AVRational := ⟨b_num, b_den⟩
  let result := N.av_sub_q a b
  match out_num, out_den with
  | some _, some _ => .ok (result.num, result.den)
  | _, _ => .nullDeref

/-- `ffshim_d2q` (ffshim.c:103-107): forwards `av_d2q`, stores the pair. -/
def ffshim_d2q (N : RationalNative) (d : Float) (max_den : Int)
    (out_num out_den : Option Int) : CResult (Int × Int) :=
  let result := N.av_d2q d max_den
  match out_num, out_den with
  | some _, some _ => .ok (result.num, result.den)
  | _, _ => .nullDeref

/-- `ffshim_q2d` (ffshim.c:109-112): forwards `av_q2d`, returns the double. -/
def ffshim_q2d (N : RationalNative) (num den : Int) : Float :=
  N.av_q2d ⟨num, den⟩

/-- `ffshim_rational_cmp` (ffshim.c:114-118): forwards `av_cmp_q`. -/
def ffshim_rational_cmp (N : RationalNative) (a_num a_den b_num b_den : Int) : Int :=
  N.av_cmp_q ⟨a_num, a_den⟩ ⟨b_num, b_den⟩

/-- A concrete `RationalNative` instance (exact fraction arithmetic over `Int`,
with a trivial float story), used only to evaluate witnesses on closed inputs. -/
def exactRationalNative : RationalNative where
  av_mul_q a b := ⟨a.num * b.num, a.den * b.den⟩
  av_div_q a b := ⟨a.num * b.den, a.den * b.num⟩
  av_add_q a b := ⟨a.num * b.den + b.num * a.den, a.den * b.den⟩
  av_sub_q a b := ⟨a.num * b.den - b.num * a.den, a.den * b.den⟩
  av_d2q _ m := ⟨0, m⟩
  av_q2d _ := 0.0
  av_cmp_q a b := if a.num * b.den < b.num * a.den then -1
    else if a.num * b.den = b.num * a.den then 0 else 1

/-! ## AVIO write forwarding -/

/-- The native `avio_write` entry point: dereferences its context handle, so a
NULL context faults inside the native library.  On a valid handle it appends
the given bytes to the stream's buffer (the shim only cares that the call is
a dereference of the handle). -/
def avio_write (ctx : Option (List Char)) (bytes : List Char) :
    CResult (List Char) :=
  match ctx with
  | none => .nullDeref
  | some buf => .ok (buf ++ bytes)

/-- `ffshim_avio_write_string` (ffshim.c:132-134):
`avio_write(avio_ctx, str, strlen(str))` with no NULL check on either
argument; `strlen(NULL)` is a NULL dereference, and a NULL context is
dereferenced inside `avio_write`. -/
def ffshim_avio_write_string (avio_ctx : Option (List Char))
    (str : Option (List Char)) : CResult (List Char) :=
  match str with
  | none => .nullDeref
  | some s => avio_write avio_ctx s

/-! ## Codec parameters / codec context accessors -/

/-- The `AVCodecParameters` fields read by the shim's accessors. -/
structure AVCodecParameters where
  width : Int
  height : Int
  format : Int
  sample_rate : Int
  ch_layout_nb_channels : Int
  deriving DecidableEq, Repr

/-- `ffshim_codecpar_width` (ffshim.c:338-343): 0 on NULL, else the field. -/
def ffshim_codecpar_width (par : Option AVCodecParameters) : Int :=
  match par with
  | none => 0
  | some p => p.width

/-- `ffshim_codecpar_height` (ffshim.c:345-350): 0 on NULL, else the field. -/
def ffshim_codecpar_height (par : Option AVCodecParameters) : Int :=
  match par with
  | none => 0
  | some p => p.height

/-- `ffshim_codecpar_format` (ffshim.c:352-357): -1 on NULL, else the field. -/
def ffshim_codecpar_format (par : Option AVCodecParameters) : Int :=
  match par with
  | none => -1
  | some p => p.format

/-- `ffshim_codecpar_sample_rate` (ffshim.c:359-364): 0 on NULL. -/
def ffshim_codecpar_sample_rate (par : Option AVCodecParameters) : Int :=
  match par with
  | none => 0
  | some p => p.sample_rate

/-- `ffshim_codecpar_channels` (ffshim.c:366-371): 0 on NULL, else
`par->ch_layout.nb_channels`. -/
def ffshim_codecpar_channels (par : Option AVCodecParameters) : Int :=
  match par with
  | none => 0
  | some p => p.ch_layout_nb_channels

/-- The `AVCodecContext` fields touched by the shim's accessors. -/
structure AVCodecContext where
  width : Int
  height : Int
  pix_fmt : Int
  sample_fmt : Int
  time_base : AVRational
  framerate : AVRational
  ch_layout_nb_channels : Int
  deriving DecidableEq, Repr

/-- `ffshim_codecctx_width` (ffshim.c:373-378): 0 on NULL, else the field. -/
def ffshim_codecctx_width (ctx : Option AVCodecContext) : Int :=
  match ctx with
  | none => 0
  | some c => c.width

/-- `ffshim_codecctx_set_width` (ffshim.c:380-385): no-op on NULL, else
assigns the field.  The updated context is returned as the new state. -/
def ffshim_codecctx_set_width (ctx : Option AVCodecContext) (width : Int) :
    Option AVCodecContext :=
  match ctx with
  | none => none
  | some c => some { c with width := width }

/-- `ffshim_codecctx_height` (ffshim.c:387-392): 0 on NULL, else the field. -/
def ffshim_codecctx_height (ctx : Option AVCodecContext) : Int :=
  match ctx with
  | none => 0
  | some c => c.height

/-- `ffshim_codecctx_set_height` (ffshim.c:394-399): no-op on NULL. -/
def ffshim_codecctx_set_height (ctx : Option AVCodecContext) (height : Int) :
    Option AVCodecContext :=
  match ctx with
  | none => none
  | some c => some { c with height := height }

/-- `ffshim_codecctx_pix_fmt` (ffshim.c:401-406): -1 on NULL, else the field. -/
def ffshim_codecctx_pix_fmt (ctx : Option AVCodecContext) : Int :=
  match ctx with
  | none => -1
  | some c => c.pix_fmt

/-- `ffshim_codecctx_set_pix_fmt` (ffshim.c:408-413): no-op on NULL. -/
def ffshim_codecctx_set_pix_fmt (ctx : Option AVCodecContext) (pix_fmt : Int) :
    Option AVCodecContext :=
  match ctx with
  | none => none
  | some c => some { c with pix_fmt := pix_fmt }

/-- Modelled from the spec: `ffshim_codecctx_sample_fmt` is declared in
ffshim.h:136 but its definition is not under `src/`.  Spec §4.7: a per-field
getter for the codec-context sample format, returning a documented sentinel
(-1, as for the other format-valued getters) on a NULL handle. -/
def ffshim_codecctx_sample_fmt (ctx : Option AVCodecContext) : Int :=
  match ctx with
  | none => -1
  | some c => c.sample_fmt

/-- Modelled from the spec: `ffshim_codecctx_set_sample_fmt` is declared in
ffshim.h:137 but its definition is not under `src/`.  Spec §4.7: a per-field
setter that silently no-ops on a NULL handle and performs no range
validation. -/
def ffshim_codecctx_set_sample_fmt (ctx : Option AVCodecContext)
    (sample_fmt : Int) : Option AVCodecContext :=
  match ctx with
  | none => none
  | some c => some { c with sample_fmt := sample_fmt }

/-- `ffshim_codecctx_time_base` (ffshim.c:415-421): returns (writes nothing)
when the context or either output pointer is NULL; otherwise writes the
time-base numerator and denominator through the two output pointers. -/
def ffshim_codecctx_time_base (ctx : Option AVCodecContext)
    (out_num out_den : Option Int) : Option (Int × Int) :=
  match ctx, out_num, out_den with
  | some c, some _, some _ => some (c.time_base.num, c.time_base.den)
  | _, _, _ => none

/-- `ffshim_codecctx_set_time_base` (ffshim.c:423-428): no-op on NULL. -/
def ffshim_codecctx_set_time_base (ctx : Option AVCodecContext)
    (num den : Int) : Option AVCodecContext :=
  match ctx with
  | none => none
  | some c => some { c with time_base := ⟨num, den⟩ }

/-- `ffshim_codecctx_framerate` (ffshim.c:430-436): returns (writes nothing)
when the context or either output pointer is NULL. -/
def ffshim_codecctx_framerate (ctx : Option AVCodecContext)
    (out_num out_den : Option Int) : Option (Int × Int) :=
  match ctx, out_num, out_den with
  | some c, some _, some _ => some (c.framerate.num, c.framerate.den)
  | _, _, _ => none

/-- `ffshim_codecctx_set_framerate` (ffshim.c:438-443): no-op on NULL. -/
def ffshim_codecctx_set_framerate (ctx : Option AVCodecContext)
    (num den : Int) : Option AVCodecContext :=
  match ctx with
  | none => none
  | some c => some { c with framerate := ⟨num, den⟩ }

/-- Modelled from the spec: `ffshim_codecctx_set_ch_layout_default` is
declared in ffshim.h:142 but its definition is not under `src/`.  Spec §4.7:
a setter installing the default channel layout for the given channel count,
silently no-oping on a NULL handle. -/
def ffshim_codecctx_set_ch_layout_default (ctx : Option AVCodecContext)
    (nb_channels : Int) : Option AVCodecContext :=
  match ctx with
  | none => none
  | some c => some { c with ch_layout_nb_channels := nb_channels }

/-! ## Logging subsystem -/

/-- `internal_log_callback` (ffshim.c:31-45).  The native library hands the
callback a format string and a `va_list`; `vsnprintf` renders them.  The
composite rendered text (what `vsnprintf` would produce with an unbounded
buffer) is the `formatted` argument here; `vsnprintf(buf, 4096, ...)` then
stores its first 4095 characters plus a terminator and returns the full
length.  `g_log_callback` tells whether a sink is installed.  The result is
`none` when no sink is called, `some (avcl, level, msg)` when the sink
receives `msg`.  The code checks `len > 0 && len < 4096 && buf[len-1] ==
'\n'` and overwrites `buf[len-1]` with a terminator, i.e. delivers the first
`len - 1` characters. -/
def internal_log_callback (g_log_callback : Bool) (avcl level : Int)
    (formatted : List Char) : Option (Int × Int × List Char) :=
  if g_log_callback = false then none
  else
    let len : Nat := formatted.length
    let buf : List Char := formatted.take 4095
    if 0 < len ∧ len < 4096 ∧ buf.getD (len - 1) ' ' = '\n' then
      some (avcl, level, buf.take (len - 1))
    else
      some (avcl, level, buf)

/-- One call into the native variadic logging entry point `av_log`: the
context, level, format string, and the string data arguments. -/
structure LogCall where
  avcl : Int
  level : Int
  fmt : List Char
  args : List (List Char)
  deriving DecidableEq, Repr

/-- A model of C `printf`-style rendering for the fragment the shim relies
on: a literal character is copied, `%s` consumes the next string argument,
`%%` renders a literal percent sign.  This is what the native logger applies
to the format string and arguments of a `LogCall`. -/
def formatC : List Char → List (List Char) → List Char
  | [], _ => []
  | [c], _ => [c]
  | c1 :: c2 :: rest, args =>
    if c1 = '%' ∧ c2 = 's' then
      match args with
      | a :: args2 => a ++ formatC rest args2
      | [] => formatC rest []
    else if c1 = '%' ∧ c2 = '%' then
      '%' :: formatC rest args
    else
      c1 :: formatC (c2 :: rest) args

/-- The text the native logger renders for a given `av_log` call. -/
def nativeLogText (c : LogCall) : List Char :=
  formatC c.fmt c.args

/-- `ffshim_log` (ffshim.c:63-65): re-emits a pre-formatted message as
`av_log(avcl, level, "%s", msg)` — the format string is the fixed literal
`"%s"` and the caller's message is passed as the single data argument. -/
def ffshim_log (avcl level : Int) (msg : List Char) : LogCall :=
  { avcl := avcl, level := level, fmt := ['%', 's'], args := [msg] }

/-! ## Chapter construction -/

/-- The `AVChapter` fields populated by the shim (`end` is a Lean keyword,
hence `end_`).  The metadata dictionary is an opaque nullable handle. -/
structure AVChapter where
  id : Int
  time_base : AVRational
  start : Int
  end_ : Int
  metadata : Option Nat
  deriving DecidableEq, Repr

/-- The `AVFormatContext` state the shim touches: the chapter array together
with `nb_chapters`.  The array holds `nb_chapters` valid entries, so it is
modelled as a list whose length is `nb_chapters`; a failed
`av_realloc_array` leaves both the old array and the count untouched. -/
structure AVFormatContext where
  chapters : List AVChapter
  deriving DecidableEq, Repr

/-- Outcome of the two allocations `ffshim_new_chapter` performs:
whether `av_mallocz` and `av_realloc_array` succeed. -/
structure AllocOracle where
  malloczOk : Bool
  reallocOk : Bool
  deriving DecidableEq, Repr

/-- Everything observable after a `ffshim_new_chapter` call: the returned
handle (`none` = NULL), the format-context state after the call (`none` when
the context handle was NULL), whether the freshly allocated chapter record
was passed to `av_free`, and whether the metadata handle was separately
released. -/
structure NewChapterOut where
  ret : Option AVChapter
  ctx : Option AVFormatContext
  chapterFreed : Bool
  metadataFreed : Bool
  deriving DecidableEq, Repr

/-- `ffshim_new_chapter` (ffshim.c:140-170): NULL context → NULL; allocate a
chapter record (`av_mallocz` may fail → NULL); populate id, time base,
start, end, metadata (taking ownership); grow the chapter array by one slot
via `av_realloc_array` (failure → `av_free(ch)` without releasing the
metadata, return NULL); on success store the new pointer and bump
`nb_chapters`. -/
def ffshim_new_chapter (alloc : AllocOracle) (ctx : Option AVFormatContext)
    (id : Int) (tb_num tb_den : Int) (start end_ : Int)
    (metadata : Option Nat) : NewChapterOut :=
  match ctx with
  | none => ⟨none, none, false, false⟩
  | some fc =>
    if alloc.malloczOk = false then ⟨none, some fc, false, false⟩
    else
      let ch : AVChapter := ⟨id, ⟨tb_num, tb_den⟩, start, end_, metadata⟩
      if alloc.reallocOk = false then ⟨none, some fc, true, false⟩
      else ⟨some ch, some ⟨fc.chapters ++ [ch]⟩, false, false⟩

/-- The construction arguments of one `ffshim_new_chapter` call. -/
structure ChapterSpec where
  id : Int
  tb_num : Int
  tb_den : Int
  start : Int
  end_ : Int
  metadata : Option Nat
  deriving DecidableEq, Repr

/-- The chapter record `ffshim_new_chapter` builds from its arguments. -/
def mkChapter (s : ChapterSpec) : AVChapter :=
  ⟨s.id, ⟨s.tb_num, s.tb_den⟩, s.start, s.end_, s.metadata⟩

/-- Sequential driver: append one chapter per spec via `ffshim_new_chapter`
with every allocation succeeding, threading the context state; `none` if any
call fails to return a handle. -/
def appendChapters (fc : AVFormatContext) :
    List ChapterSpec → Option AVFormatContext
  | [] => some fc
  | s :: rest =>
    let out := ffshim_new_chapter ⟨true, true⟩ (some fc)
      s.id s.tb_num s.tb_den s.start s.end_ s.metadata
    match out.ret, out.ctx with
    | some _, some fc2 => appendChapters fc2 rest
    | _, _ => none

/-! ## Device enumeration (FFSHIM_HAVE_AVDEVICE variant, ffshim.c:198-285) -/

/-- `AVERROR(e)`: FFmpeg negates POSIX error numbers. -/
def AVERROR (e : Int) : Int := -e

/-- POSIX `EINVAL`. -/
def EINVAL : Int := 22

/-- POSIX `ENOMEM`. -/
def ENOMEM : Int := 12

/-- One native `AVDeviceInfo` entry: nullable name/description strings
(the list pointer entries themselves may also be NULL). -/
structure AVDeviceInfo where
  device_name : Option (List Char)
  device_description : Option (List Char)
  deriving DecidableEq, Repr

/-- The native libavdevice entry points the shim forwards to (uninterpreted:
they live in FFmpeg).  `avdevice_list_input_sources` either fails with a
negative code or yields the device list (a NULL list or non-positive count
is the empty list). -/
structure DeviceNative where
  av_find_input_format : List Char → Bool
  avdevice_list_input_sources :
    List Char → Option (List Char) → Except Int (List (Option AVDeviceInfo))

/-- The `(device_name != NULL && device_name[0] != '\0') ? device_name :
NULL` argument cleaning in ffshim.c:232. -/
def cleanDeviceName (device_name : Option (List Char)) : Option (List Char) :=
  match device_name with
  | some (c :: cs) => some (c :: cs)
  | _ => none

/-- The `(dev != NULL && dev->device_name != NULL) ? dev->device_name : ""`
defaulting in ffshim.c:261. -/
def deviceNameOrEmpty (dev : Option AVDeviceInfo) : List Char :=
  match dev with
  | some d => d.device_name.getD []
  | none => []

/-- The matching defaulting for `device_description` (ffshim.c:262). -/
def deviceDescOrEmpty (dev : Option AVDeviceInfo) : List Char :=
  match dev with
  | some d => d.device_description.getD []
  | none => []

/-- Observable outcome of `ffshim_avdevice_list_input_sources`: the return
code, the one-time registration flag after the call, and the contents of the
three output cells after the call (outer `none` = the output pointer was
NULL, so nothing was written; inner `none` in the array cells = NULL was
written). -/
structure DevListOut where
  ret : Int
  registered : Bool
  out_count : Option Int
  out_names : Option (Option (List (List Char)))
  out_descs : Option (Option (List (List Char)))
  deriving DecidableEq, Repr

/-- `ffshim_avdevice_list_input_sources` (ffshim.c:198-273, the
`FFSHIM_HAVE_AVDEVICE` variant): NULL output pointers → `AVERROR(EINVAL)`
with nothing written; outputs zeroed; NULL/empty format name →
`AVERROR(EINVAL)`; lazily register the device subsystem;
`av_find_input_format` miss → `AVERROR(EINVAL)`; forward the native query
(propagating its negative codes); empty device list → 0 with zeroed
outputs; array allocation failure → `AVERROR(ENOMEM)`; otherwise fill the
parallel name/description arrays and the count. -/
def ffshim_avdevice_list_input_sources (N : DeviceNative)
    (namesAllocOk descsAllocOk : Bool) (registered : Bool)
    (format_name device_name : Option (List Char))
    (out_count : Option Int)
    (out_names out_descs : Option (Option (List (List Char)))) : DevListOut :=
  if out_count = none ∨ out_names = none ∨ out_descs = none then
    ⟨AVERROR EINVAL, registered, out_count, out_names, out_descs⟩
  else
    let count0 : Option Int := some 0
    let names0 : Option (Option (List (List Char))) := some none
    let descs0 : Option (Option (List (List Char))) := some none
    match format_name with
    | none => ⟨AVERROR EINVAL, registered, count0, names0, descs0⟩
    | some fname =>
      if fname = [] then ⟨AVERROR EINVAL, registered, count0, names0, descs0⟩
      else
        let registered := true
        if N.av_find_input_format fname = false then
          ⟨AVERROR EINVAL, registered, count0, names0, descs0⟩
        else
          match N.avdevice_list_input_sources fname
              (cleanDeviceName device_name) with
          | .error ret => ⟨ret, registered, count0, names0, descs0⟩
          | .ok devs =>
            if devs.length = 0 then ⟨0, registered, count0, names0, descs0⟩
            else if namesAllocOk = false ∨ descsAllocOk = false then
              ⟨AVERROR ENOMEM, registered, count0, names0, descs0⟩
            else
              ⟨0, registered, some (devs.length : Int),
                some (some (devs.map deviceNameOrEmpty)),
                some (some (devs.map deviceDescOrEmpty))⟩

/-- Outcome of `ffshim_avdevice_free_string_array`: either the number of
`av_free` calls performed, or an out-of-bounds access fault. -/
inductive FreeOutcome where
  | ok : Nat → FreeOutcome
  | fault : FreeOutcome
  deriving DecidableEq, Repr

/-- `ffshim_avdevice_free_string_array` (ffshim.c:275-285): a NULL array or
`count <= 0` returns immediately with no frees; otherwise each of the first
`count` entries is freed when non-NULL (reading past the allocation faults),
then the array itself is freed. -/
def ffshim_avdevice_free_string_array
    (arr : Option (List (Option (List Char)))) (count : Int) : FreeOutcome :=
  match arr with
  | none => .ok 0
  | some cells =>
    if count ≤ 0 then .ok 0
    else if count.toNat ≤ cells.length then
      .ok (((cells.take count.toNat).countP fun c => c.isSome) + 1)
    else .fault

/-! ## Frame colour offsets -/

/-- `ffshim_avframe_color_offsets` (ffshim.c:317-332): any NULL output
pointer → -1 with nothing written; otherwise write the four `offsetof`
constants (platform layout values, passed in as parameters since the struct
layout belongs to the native library) and return 0. -/
def ffshim_avframe_color_offsets (off_cr off_cs off_cp off_ct : Int)
    (o1 o2 o3 o4 : Option Int) :
    Int × (Option Int × Option Int × Option Int × Option Int) :=
  if o1 = none ∨ o2 = none ∨ o3 = none ∨ o4 = none then
    (-1, (o1, o2, o3, o4))
  else
    (0, (some off_cr, some off_cs, some off_cp, some off_ct))

/-! ## Helper lemmas -/

/-- Characterization of `internal_log_callback` with a sink installed:
unfolds the definition's let-bindings. -/
lemma internal_log_callback_true_eq (avcl level : Int) (msg : List Char) :
    internal_log_callback true avcl level msg =
      if 0 < msg.length ∧ msg.length < 4096 ∧
          (msg.take 4095).getD (msg.length - 1) ' ' = '\n'
      then some (avcl, level, (msg.take 4095).take (msg.length - 1))
      else some (avcl, level, msg.take 4095) := rfl

/-- Running the sequential chapter driver from any context appends the
constructed chapter records, in order, to the existing chapter array. -/
lemma appendChapters_eq (specs : List ChapterSpec) (fc : AVFormatContext) :
    appendChapters fc specs = some ⟨fc.chapters ++ specs.map mkChapter⟩ := by
  induction specs generalizing fc with
  | nil => simp [appendChapters]
  | cons s rest ih => simp [appendChapters, ffshim_new_chapter, mkChapter, ih]

/-! ## Claim theorems -/

/-- C1 (counterexample): the claim asserts that every exported function
given a NULL pointer returns a sentinel or no-ops without dereferencing,
naming in particular the rational output-parameter functions and the
byte-stream write function.  That is false: `ffshim_rational_mul` stores
through a NULL `out_num`, and `ffshim_avio_write_string` calls
`strlen(NULL)` respectively passes a NULL stream handle straight into
`avio_write`. -/
theorem c1_rational_and_avio_null_deref :
    ffshim_rational_mul exactRationalNative 1 2 3 4 none (some 0) =
      CResult.nullDeref
    ∧ ffshim_avio_write_string none (some ['a']) = CResult.nullDeref
    ∧ ffshim_avio_write_string (some []) none = CResult.nullDeref :=
  ⟨rfl, rfl, rfl⟩

/-- C1 (amended): null-safety holds uniformly for the shim functions that
perform explicit NULL checks — the codec-parameter and codec-context
accessors and mutators, the time-base/frame-rate output-parameter getters,
chapter construction, the device string-array free and enumeration entry
points, the frame colour-offset reporter, and the internal log dispatch —
each returning its documented sentinel (0, -1, NULL, `AVERROR(EINVAL)`) or
acting as a no-op; the rational-arithmetic output-parameter functions and
the byte-stream write function are excluded, as they dereference their
pointer arguments unconditionally. -/
theorem c1_null_safety_scope :
    ffshim_codecpar_width none = 0
    ∧ ffshim_codecpar_height none = 0
    ∧ ffshim_codecpar_format none = -1
    ∧ ffshim_codecpar_sample_rate none = 0
    ∧ ffshim_codecpar_channels none = 0
    ∧ ffshim_codecctx_width none = 0
    ∧ ffshim_codecctx_height none = 0
    ∧ ffshim_codecctx_pix_fmt none = -1
    ∧ ffshim_codecctx_sample_fmt none = -1
    ∧ (∀ v, ffshim_codecctx_set_width none v = none)
    ∧ (∀ v, ffshim_codecctx_set_height none v = none)
    ∧ (∀ v, ffshim_codecctx_set_pix_fmt none v = none)
    ∧ (∀ v, ffshim_codecctx_set_sample_fmt none v = none)
    ∧ (∀ n d, ffshim_codecctx_set_time_base none n d = none)
    ∧ (∀ n d, ffshim_codecctx_set_framerate none n d = none)
    ∧ (∀ v, ffshim_codecctx_set_ch_layout_default none v = none)
    ∧ (∀ o1 o2, ffshim_codecctx_time_base none o1 o2 = none)
    ∧ (∀ c o2, ffshim_codecctx_time_base (some c) none o2 = none)
    ∧ (∀ c o1, ffshim_codecctx_time_base (some c) o1 none = none)
    ∧ (∀ o1 o2, ffshim_codecctx_framerate none o1 o2 = none)
    ∧ (∀ c o2, ffshim_codecctx_framerate (some c) none o2 = none)
    ∧ (∀ c o1, ffshim_codecctx_framerate (some c) o1 none = none)
    ∧ (∀ alloc i tn td s e m,
        ffshim_new_chapter alloc none i tn td s e m = ⟨none, none, false, false⟩)
    ∧ (∀ count, ffshim_avdevice_free_string_array none count = .ok 0)
    ∧ (∀ N na da reg fn dn onames odescs,
        ffshim_avdevice_list_input_sources N na da reg fn dn none onames odescs
          = ⟨AVERROR EINVAL, reg, none, onames, odescs⟩)
    ∧ (∀ N na da reg fn dn c0 odescs,
        ffshim_avdevice_list_input_sources N na da reg fn dn (some c0) none odescs
          = ⟨AVERROR EINVAL, reg, some c0, none, odescs⟩)
    ∧ (∀ N na da reg fn dn c0 n0,
        ffshim_avdevice_list_input_sources N na da reg fn dn (some c0) (some n0) none
          = ⟨AVERROR EINVAL, reg, some c0, some n0, none⟩)
    ∧ (∀ a b c d o2 o3 o4,
        ffshim_avframe_color_offsets a b c d none o2 o3 o4 = (-1, (none, o2, o3, o4)))
    ∧ (∀ a b c d x o3 o4,
        ffshim_avframe_color_offsets a b c d (some x) none o3 o4
          = (-1, (some x, none, o3, o4)))
    ∧ (∀ a b c d x y o4,
        ffshim_avframe_color_offsets a b c d (some x) (some y) none o4
          = (-1, (some x, some y, none, o4)))
    ∧ (∀ a b c d x y z,
        ffshim_avframe_color_offsets a b c d (some x) (some y) (some z) none
          = (-1, (some x, some y, some z, none)))
    ∧ (∀ avcl level msg, internal_log_callback false avcl level msg = none) :=
  ⟨rfl, rfl, rfl, rfl, rfl, rfl, rfl, rfl, rfl,
   fun _ => rfl, fun _ => rfl, fun _ => rfl, fun _ => rfl,
   fun _ _ => rfl, fun _ _ => rfl, fun _ => rfl,
   fun _ _ => rfl, fun _ _ => rfl, fun c o1 => by cases o1 <;> rfl,
   fun _ _ => rfl, fun _ _ => rfl, fun c o1 => by cases o1 <;> rfl,
   fun _ _ _ _ _ _ _ => rfl, fun _ => rfl,
   fun _ _ _ _ _ _ _ _ => rfl, fun _ _ _ _ _ _ _ _ => rfl,
   fun _ _ _ _ _ _ _ _ => rfl,
   fun _ _ _ _ _ _ _ => rfl, fun _ _ _ _ _ _ _ => rfl,
   fun _ _ _ _ _ _ _ => rfl, fun _ _ _ _ _ _ _ => rfl,
   fun _ _ _ => rfl⟩

/-- C2: `ffshim_new_chapter` returns a NULL handle exactly when the context
handle is NULL, the chapter allocation fails, or the array-growth
reallocation fails; and on the reallocation-failure path the freshly
allocated chapter record is freed while the attached metadata handle is not
separately released. -/
theorem c2_new_chapter_failure_modes (alloc : AllocOracle)
    (ctx : Option AVFormatContext) (i tn td s e : Int) (m : Option Nat) :
    ((ffshim_new_chapter alloc ctx i tn td s e m).ret = none ↔
      ctx = none ∨ alloc.malloczOk = false ∨ alloc.reallocOk = false)
    ∧ (∀ fc : AVFormatContext,
        (ffshim_new_chapter ⟨true, false⟩ (some fc) i tn td s e m).ret = none
        ∧ (ffshim_new_chapter ⟨true, false⟩ (some fc) i tn td s e m).chapterFreed
            = true
        ∧ (ffshim_new_chapter ⟨true, false⟩ (some fc) i tn td s e m).metadataFreed
            = false) := by
  obtain ⟨mz, ra⟩ := alloc
  constructor
  · cases ctx <;> cases mz <;> cases ra <;> simp [ffshim_new_chapter]
  · exact fun fc => ⟨rfl, rfl, rfl⟩

/-- C3: with a sink installed, the internal log formatting callback renders
the message into a 4096-byte buffer, truncating on overflow to the 4095
characters that fit; within the formatting limit, a message ending in a
newline reaches the sink with exactly that one trailing newline removed,
and a message not ending in a newline reaches the sink unmodified. -/
theorem c3_log_format_newline_strip (avcl level : Int) (msg : List Char) :
    (msg.length < 4096 →
      (msg.getLast? = some '\n' →
        internal_log_callback true avcl level msg
          = some (avcl, level, msg.dropLast))
      ∧ (msg.getLast? ≠ some '\n' →
        internal_log_callback true avcl level msg = some (avcl, level, msg)))
    ∧ (4096 ≤ msg.length →
      internal_log_callback true avcl level msg
        = some (avcl, level, msg.take 4095)) := by
  constructor
  · intro hlen
    have hbuf : msg.take 4095 = msg := List.take_of_length_le (by omega)
    constructor
    · intro hlast
      have hne : msg ≠ [] := by rintro rfl; simp at hlast
      have hpos : 0 < msg.length := List.length_pos.mpr hne
      have hcond : 0 < msg.length ∧ msg.length < 4096 ∧
          msg.getD (msg.length - 1) ' ' = '\n' := by
        refine ⟨hpos, hlen, ?_⟩
        rw [List.getD_eq_getElem?_getD, ← List.getLast?_eq_getElem?, hlast]
        rfl
      rw [internal_log_callback_true_eq, hbuf, if_pos hcond,
        List.dropLast_eq_take]
    · intro hlast
      have hcond : ¬(0 < msg.length ∧ msg.length < 4096 ∧
          msg.getD (msg.length - 1) ' ' = '\n') := by
        rintro ⟨hpos, -, hd⟩
        apply hlast
        rw [List.getD_eq_getElem?_getD, ← List.getLast?_eq_getElem?] at hd
        cases hl : msg.getLast? with
        | none => rw [hl] at hd; exact absurd hd (by decide)
        | some ch =>
          rw [hl] at hd
          simp only [Option.getD_some] at hd
          exact congrArg some hd
      rw [internal_log_callback_true_eq, hbuf, if_neg hcond]
  · intro hlen
    rw [internal_log_callback_true_eq, if_neg]
    rintro ⟨-, h2, -⟩
    omega

/-- C3 witness: the three behaviours at concrete messages — a two-character
message plus trailing newline is delivered with the newline stripped, a
newline-free message is delivered unmodified, and a 4096-character message
is truncated to the 4095 characters that fit. -/
theorem c3_log_format_newline_strip_witness :
    internal_log_callback true 0 0 ['a', '\n'] = some (0, 0, ['a'])
    ∧ internal_log_callback true 0 0 ['a'] = some (0, 0, ['a'])
    ∧ internal_log_callback true 0 0 (List.replicate 4096 'b')
        = some (0, 0, List.replicate 4095 'b') := by
  refine ⟨((c3_log_format_newline_strip 0 0 ['a', '\n']).1 (by decide)).1
      (by decide),
    ((c3_log_format_newline_strip 0 0 ['a']).1 (by decide)).2 (by decide), ?_⟩
  have h := (c3_log_format_newline_strip 0 0 (List.replicate 4096 'b')).2
    (by simp only [List.length_replicate]; norm_num)
  have hmin : min 4095 4096 = 4095 := by norm_num
  rw [List.take_replicate, hmin] at h
  exact h

/-- C4: each rational forwarding operation (multiply, divide, add,
subtract, double-to-rational, rational-to-double, compare) writes into its
two output locations (or returns) exactly the result of the corresponding
native-library call on the same operands, for every native implementation
and all operand pairs. -/
theorem c4_rational_forwarding_bitexact (N : RationalNative)
    (a_num a_den b_num b_den u v max_den num den : Int) (d : Float) :
    ffshim_rational_mul N a_num a_den b_num b_den (some u) (some v)
      = .ok ((N.av_mul_q ⟨a_num, a_den⟩ ⟨b_num, b_den⟩).num,
             (N.av_mul_q ⟨a_num, a_den⟩ ⟨b_num, b_den⟩).den)
    ∧ ffshim_rational_div N a_num a_den b_num b_den (some u) (some v)
      = .ok ((N.av_div_q ⟨a_num, a_den⟩ ⟨b_num, b_den⟩).num,
             (N.av_div_q ⟨a_num, a_den⟩ ⟨b_num, b_den⟩).den)
    ∧ ffshim_rational_add N a_num a_den b_num b_den (some u) (some v)
      = .ok ((N.av_add_q ⟨a_num, a_den⟩ ⟨b_num, b_den⟩).num,
             (N.av_add_q ⟨a_num, a_den⟩ ⟨b_num, b_den⟩).den)
    ∧ ffshim_rational_sub N a_num a_den b_num b_den (some u) (some v)
      = .ok ((N.av_sub_q ⟨a_num, a_den⟩ ⟨b_num, b_den⟩).num,
             (N.av_sub_q ⟨a_num, a_den⟩ ⟨b_num, b_den⟩).den)
    ∧ ffshim_d2q N d max_den (some u) (some v)
      = .ok ((N.av_d2q d max_den).num, (N.av_d2q d max_den).den)
    ∧ ffshim_q2d N num den = N.av_q2d ⟨num, den⟩
    ∧ ffshim_rational_cmp N a_num a_den b_num b_den
      = N.av_cmp_q ⟨a_num, a_den⟩ ⟨b_num, b_den⟩ :=
  ⟨rfl, rfl, rfl, rfl, rfl, rfl, rfl⟩

/-- C5: for every non-null codec-context handle and every value, setting a
field and reading it back returns that value, for each accessor/mutator
pair the shim exposes — width, height, pixel format, sample format
(modelled from the spec), time base, and frame rate. -/
theorem c5_codecctx_get_set_roundtrip (c : AVCodecContext)
    (v n d : Int) (u w : Int) :
    ffshim_codecctx_width (ffshim_codecctx_set_width (some c) v) = v
    ∧ ffshim_codecctx_height (ffshim_codecctx_set_height (some c) v) = v
    ∧ ffshim_codecctx_pix_fmt (ffshim_codecctx_set_pix_fmt (some c) v) = v
    ∧ ffshim_codecctx_sample_fmt (ffshim_codecctx_set_sample_fmt (some c) v)
        = v
    ∧ ffshim_codecctx_time_base (ffshim_codecctx_set_time_base (some c) n d)
        (some u) (some w) = some (n, d)
    ∧ ffshim_codecctx_framerate (ffshim_codecctx_set_framerate (some c) n d)
        (some u) (some w) = some (n, d) :=
  ⟨rfl, rfl, rfl, rfl, rfl, rfl⟩

/-- C6: appending N chapters sequentially to a format context whose chapter
array is initially empty, with every allocation succeeding, yields a
chapter array of length N holding, in append order, exactly the chapter
records built from each call's construction arguments; and each successful
call grows the array by exactly one slot. -/
theorem c6_chapter_append_order (specs : List ChapterSpec)
    (fc : AVFormatContext) (s : ChapterSpec) :
    appendChapters ⟨[]⟩ specs = some ⟨specs.map mkChapter⟩
    ∧ (specs.map mkChapter).length = specs.length
    ∧ (ffshim_new_chapter ⟨true, true⟩ (some fc)
        s.id s.tb_num s.tb_den s.start s.end_ s.metadata).ctx
        = some ⟨fc.chapters ++ [mkChapter s]⟩
    ∧ (fc.chapters ++ [mkChapter s]).length = fc.chapters.length + 1 := by
  refine ⟨?_, by simp, rfl, by simp⟩
  simpa using appendChapters_eq specs ⟨[]⟩

/-- C7: `ffshim_avdevice_list_input_sources` called with non-null output
pointers and an empty format name, or a format name the native
`av_find_input_format` does not recognize, returns `AVERROR(EINVAL)` and
leaves the outputs reporting a zero count with NULL name and description
arrays. -/
theorem c7_list_input_sources_invalid_format (N : DeviceNative)
    (na da reg : Bool) (dname : Option (List Char)) (c0 : Int)
    (n0 d0 : Option (List (List Char))) (fname : List Char) :
    (ffshim_avdevice_list_input_sources N na da reg (some []) dname
        (some c0) (some n0) (some d0)
      = ⟨AVERROR EINVAL, reg, some 0, some none, some none⟩)
    ∧ (fname ≠ [] → N.av_find_input_format fname = false →
      ffshim_avdevice_list_input_sources N na da reg (some fname) dname
          (some c0) (some n0) (some d0)
        = ⟨AVERROR EINVAL, true, some 0, some none, some none⟩) := by
  constructor
  · rfl
  · intro h1 h2
    simp [ffshim_avdevice_list_input_sources, h1, h2]

/-- C7 witness: a native library with no recognized input formats, queried
with the non-empty name "x" and valid output pointers, yields
`AVERROR(EINVAL)` = -22, a zero count, and NULL arrays. -/
theorem c7_list_input_sources_invalid_format_witness :
    ffshim_avdevice_list_input_sources
        ⟨fun _ => false, fun _ _ => .ok []⟩ true true false
        (some ['x']) none (some 9) (some none) (some none)
      = ⟨AVERROR EINVAL, true, some 0, some none, some none⟩ :=
  (c7_list_input_sources_invalid_format ⟨fun _ => false, fun _ _ => .ok []⟩
    true true false none 9 none none ['x']).2 (by decide) rfl

/-- C8: `ffshim_log` re-emits the caller's message through the native
logging entry point under the fixed literal "%s" format, so the text the
native logger renders equals the message itself, even when the message
contains format specifiers. -/
theorem c8_log_forwards_message_verbatim (avcl level : Int)
    (msg : List Char) :
    nativeLogText (ffshim_log avcl level msg) = msg := by
  simp [nativeLogText, ffshim_log, formatC]

/-- C9: `ffshim_avdevice_free_string_array` is a safe no-op — zero frees
and no fault — whenever the array pointer is NULL or the count is zero or
negative. -/
theorem c9_free_string_array_noop
    (arr : Option (List (Option (List Char)))) (count : Int) :
    ffshim_avdevice_free_string_array none count = .ok 0
    ∧ (count ≤ 0 → ffshim_avdevice_free_string_array arr count = .ok 0) := by
  constructor
  · rfl
  · intro h
    cases arr with
    | none => rfl
    | some cells => simp [ffshim_avdevice_free_string_array, h]

/-- C9 witness: freeing a non-null one-element array with count -3 performs
no frees and does not fault. -/
theorem c9_free_string_array_noop_witness :
    ffshim_avdevice_free_string_array (some [some ['a']]) (-3) = .ok 0 :=
  (c9_free_string_array_noop (some [some ['a']]) (-3)).2 (by decide)

/-- C10: on every failure path of `ffshim_new_chapter` (NULL context,
chapter allocation failure, or array-reallocation failure), the format
context's observable state — its chapter array and chapter count — is
exactly what it was before the call. -/
theorem c10_new_chapter_failure_preserves_state (alloc : AllocOracle)
    (ctx : Option AVFormatContext) (i tn td s e : Int) (m : Option Nat)
    (h : (ffshim_new_chapter alloc ctx i tn td s e m).ret = none) :
    (ffshim_new_chapter alloc ctx i tn td s e m).ctx = ctx := by
  obtain ⟨mz, ra⟩ := alloc
  cases ctx <;> cases mz <;> cases ra <;> simp_all [ffshim_new_chapter]

/-- C10 witness: a chapter-allocation failure on a context with an empty
chapter array leaves the context state unchanged. -/
theorem c10_new_chapter_failure_preserves_state_witness :
    (ffshim_new_chapter ⟨false, true⟩ (some ⟨[]⟩) 0 0 0 0 0 none).ctx
      = some ⟨[]⟩ :=
  c10_new_chapter_failure_preserves_state ⟨false, true⟩ (some ⟨[]⟩)
    0 0 0 0 0 none rfl
